import Mathlib

/-!
Shallow embedding of `helper.py` from the repository
`machinelearnear/sd-dreambooth-training-in-studiolab`.

Python strings are modelled as `List Char`; Python exceptions as an
explicit error type threaded through `Except` / an `Outcome`; every
external side effect (print, subprocess.run, os.system, shutil.rmtree,
gr.close_all, time.sleep) is recorded as an event in a trace.  External
observations (directory existence, nvidia-smi output, CUDA availability)
are inputs.
-/

deriving instance DecidableEq for Except

/-- Python strings are modelled as lists of characters. -/
abbrev Str := List Char

/-- Whitespace characters removed by Python `str.strip()`. -/
def isPySpace (c : Char) : Bool :=
  c = ' ' || c = '\t' || c = '\n' || c = '\r' || c = '\x0b' || c = '\x0c'

/-- Python `str.lstrip()`. -/
def lstrip (s : Str) : Str := s.dropWhile isPySpace

/-- Python `str.rstrip()`. -/
def rstrip (s : Str) : Str := (s.reverse.dropWhile isPySpace).reverse

/-- Python `str.strip()`: remove surrounding whitespace. -/
def strip (s : Str) : Str := rstrip (lstrip s)

/-- Python `str.replace('\n','')` specialised to removing newline characters. -/
def removeNl (s : Str) : Str := s.filter (fun c => !(c = '\n'))

/-- Python `str.find(c)`: index of the first occurrence, or `-1` if absent. -/
def pyFind (c : Char) : Str → Int
  | [] => -1
  | a :: rest =>
      if a = c then 0
      else
        let r := pyFind c rest
        if r = -1 then -1 else r + 1

/-- Python `str.split(c)`: split at every occurrence of `c`. -/
def pySplit (c : Char) : Str → List Str
  | [] => [[]]
  | a :: rest =>
      match pySplit c rest with
      | [] => [[]]
      | h :: t => if a = c then [] :: h :: t else (a :: h) :: t

/-- Number of occurrences of a character. -/
def countCh (c : Char) : Str → Nat
  | [] => 0
  | a :: rest => (if a = c then 1 else 0) + countCh c rest

/-- The text strictly before the first occurrence of `c` (all of `s` if absent). -/
def beforeFirst (c : Char) : Str → Str
  | [] => []
  | a :: rest => if a = c then [] else a :: beforeFirst c rest

/-- The text strictly after the first occurrence of `c` (empty if absent). -/
def afterFirst (c : Char) : Str → Str
  | [] => []
  | a :: rest => if a = c then rest else afterFirst c rest

/-- Whether `s` starts with `pat`. -/
def strStartsWith : Str → Str → Bool
  | [], _ => true
  | _ :: _, [] => false
  | p :: ps, c :: cs => p = c && strStartsWith ps cs

/-- Python substring containment `pat in s`. -/
def strContains (pat : Str) : Str → Bool
  | [] => strStartsWith pat []
  | c :: cs => strStartsWith pat (c :: cs) || strContains pat cs

/-- Python dict lookup `d[k]` as an `Option`. -/
def dictGet : List (Str × Str) → Str → Option Str
  | [], _ => none
  | (k', v) :: rest, k => if k' = k then some v else dictGet rest k

/-- Python dict assignment `d[k] = v`: replace in place or append. -/
def dictSet (d : List (Str × Str)) (k v : Str) : List (Str × Str) :=
  match d with
  | [] => [(k, v)]
  | (k', v') :: rest => if k' = k then (k, v) :: rest else (k', v') :: dictSet rest k v

/-- The Python exception classes that the embedded code can raise. -/
inductive PyError where
  | keyError
  | typeError
  | valueError
  | attributeError
  | nameError
  | calledProcessError
  | osError
deriving DecidableEq, Repr

/-- Observable side effects of the embedded code. -/
inductive Ev where
  | print (s : Str)
  | run (cmd : List Str)
  | rmtree (dir : Str)
  | closeAll
  | system (cmd : Str)
  | sleep (n : Nat)
deriving DecidableEq, Repr

/-- How a call ends: normal return, a raised exception, or a hang
(the unbounded loop in `install_xformers` never exiting). -/
inductive Outcome where
  | ok
  | err (e : PyError)
  | hang
deriving DecidableEq, Repr

/-- The values `__str__` can produce: a Python `str` or `None`
(plus `dict`, the type `retrieve_readme` actually builds, for comparison). -/
inductive PyVal where
  | str (s : Str)
  | pynone
  | dict (d : List (Str × Str))
deriving DecidableEq, Repr

/-- Python subscript `v[k]` with a string key: works on a dict
(`KeyError` when the key is absent), raises `TypeError` on `str` and `None`. -/
def pySubscript : PyVal → Str → Except PyError Str
  | PyVal.dict d, k =>
      match dictGet d k with
      | some v => Except.ok v
      | none => Except.error PyError.keyError
  | PyVal.str _, _ => Except.error PyError.typeError
  | PyVal.pynone, _ => Except.error PyError.typeError

/-! ### Module-level constants of `helper.py` -/

/-- Module constant `bold` (the ANSI bold escape). -/
def bold : Str := ("\x1b[1m").data

/-- Module constant `unbold` (the ANSI reset escape). -/
def unbold : Str := ("\x1b[0m").data

/-- The literal checked by the README parser: lines containing it are skipped. -/
def checkStr : Str := ("Check").data

/-- Python single-quote character, used when rendering a dict with `str`. -/
def quoteCh : Char := Char.ofNat 39

/-- Rendering of one dict entry inside `str(dict)`. -/
def reprEntry (kv : Str × Str) : Str :=
  quoteCh :: kv.1 ++ [quoteCh] ++ (": ").data ++ quoteCh :: kv.2 ++ [quoteCh]

/-- Rendering of the comma-separated entries inside `str(dict)`. -/
def reprEntries : List (Str × Str) → Str
  | [] => []
  | [kv] => reprEntry kv
  | kv :: rest => reprEntry kv ++ (", ").data ++ reprEntries rest

/-- Python `str(dict)` / `f"{dict}"`: `{'k': 'v', ...}` (escape handling inside
keys and values, which never arises here, is not modelled). -/
def reprDict (d : List (Str × Str)) : Str :=
  Char.ofNat 123 :: reprEntries d ++ [Char.ofNat 125]

/-! ### The `RepoHandler` object

`__init__` prints an environment banner (Colab vs Studio Lab, chosen by
introspection; no further behaviour depends on it), stores `repo_url` and
derives `repo_name`.  The class never assigns `self.requirements_file`,
which is why that field is an `Option` defaulting to `none`. -/

structure RepoHandler where
  repo_url : Str
  requirements_file : Option Str := none

/-- Derived attribute `repo_name = repo_url.split('/')[-1]`. -/
def repo_name (h : RepoHandler) : Str := (pySplit '/' h.repo_url).getLastD []

/-! ### retrieve_readme -/

/-- Processing of a single README line (loop body of `retrieve_readme`):
skip the line unless its first colon is at index > 0 and it does not contain
`"Check"`; otherwise `(k,v) = line.split(':')` (a `ValueError` when the split
does not have exactly two parts) and `readme[k] = v.strip().replace('\n','')`. -/
def readmeStep (d : List (Str × Str)) (line : Str) : Except PyError (List (Str × Str)) :=
  if ¬ pyFind ':' line > 0 ∨ strContains checkStr line = true then Except.ok d
  else
    match pySplit ':' line with
    | [k, v] => Except.ok (dictSet d k (removeNl (strip v)))
    | _ => Except.error PyError.valueError

/-- Message printed when the README file is absent. -/
def noReadmeMsg : Str := bold ++ ("No readme.md file").data ++ unbold

/-- `retrieve_readme(filename)`: if the file exists, fold `readmeStep` over its
lines starting from an empty dict; otherwise print a message and return the
empty dict.  The file is an input: its existence flag and its list of lines
(each line still carrying its trailing newline, as Python file iteration
yields them). -/
def retrieve_readme (file_exists : Bool) (lines : List Str) :
    List Ev × Except PyError (List (Str × Str)) :=
  if file_exists then ([], List.foldlM readmeStep [] lines)
  else ([Ev.print noReadmeMsg], Except.ok [])

/-! ### __str__ -/

/-- Message printed by `__str__` when the repo directory does not exist. -/
def notClonedMsg (name : Str) : Str :=
  bold ++ ("The repo ").data ++ name ++ (" has not been cloned yet.").data ++ unbold

/-- `__str__`: when the repo directory exists, return the f-string rendering
of the parsed README dict (a Python `str`); otherwise print a message and
return `None`. -/
def strOfRepo (name : Str) (dir_exists file_exists : Bool) (lines : List Str) :
    List Ev × Except PyError PyVal :=
  if dir_exists then
    match retrieve_readme file_exists lines with
    | (evs, Except.ok d) => (evs, Except.ok (PyVal.str (reprDict d)))
    | (evs, Except.error e) => (evs, Except.error e)
  else ([Ev.print (notClonedMsg name)], Except.ok PyVal.pynone)

/-! ### clone_repo -/

/-- Error report printed when `shutil.rmtree` raises `OSError`
(`"Error: %s - %s." % (e.filename, e.strerror)`; the strerror text is
environment-supplied and abstracted). -/
def rmtreeErrMsg (name : Str) : Str :=
  ("Error: ").data ++ name ++ (" - could not be removed.").data

/-- Message printed when the repository directory already exists. -/
def alreadyClonedMsg (name : Str) : Str :=
  ("Repository ").data ++ name ++ (" has already been cloned.").data

/-- The `git clone <url>` command. -/
def gitCloneCmd (url : Str) : List Str := [("git").data, ("clone").data, url]

/-- `clone_repo(overwrite)`.  Inputs from the environment: whether the
directory currently exists and whether an attempted `rmtree` on the existing
directory succeeds (on a missing directory `rmtree` always raises `OSError`,
which the code catches and reports).  Returns the event trace and whether
the directory still exists at the branch on `os.path.exists`. -/
def clone_repo (h : RepoHandler) (dir_exists rmtree_ok : Bool)
    (overwrite : Bool := false) : List Ev × Bool :=
  let step1 : List Ev × Bool :=
    if overwrite then
      if dir_exists && rmtree_ok then ([Ev.rmtree (repo_name h)], false)
      else ([Ev.print (rmtreeErrMsg (repo_name h))], dir_exists)
    else ([], dir_exists)
  match step1 with
  | (evs, dirNow) =>
      if dirNow then (evs ++ [Ev.print (alreadyClonedMsg (repo_name h))], true)
      else (evs ++ [Ev.run (gitCloneCmd h.repo_url)], false)

/-! ### install_xformers -/

/-- `pip install -U --pre triton`. -/
def pipTritonCmd : List Str :=
  [("pip").data, ("install").data, ("-U").data, ("--pre").data, ("triton").data]

/-- The four GPU model names recognised by `install_xformers`. -/
def t4Str : Str := ("T4").data
def p100Str : Str := ("P100").data
def v100Str : Str := ("V100").data
def a100Str : Str := ("A100").data

/-- The `if 'T4' in s: gpu = 'T4' / elif ...` chain over the `nvidia-smi`
summary text: `some model` when one of the four substrings matches (the local
variable `gpu` gets bound), `none` when none does (`gpu` stays unbound). -/
def detectGpu (s : Str) : Option Str :=
  if strContains t4Str s then some t4Str
  else if strContains p100Str s then some p100Str
  else if strContains v100Str s then some v100Str
  else if strContains a100Str s then some a100Str
  else none

/-- Warning printed each time round the `while True` loop when `gpu` is unbound. -/
def xformersWarnMsg : Str :=
  bold ++ (" Seems that your GPU is not supported at the moment.").data ++ unbold

/-- The `while True` loop of `install_xformers`, run for at most `fuel`
iterations.  When `gpu` is bound, evaluating `gpu=='T4' or ...` succeeds and
`break` exits at once with no events.  When `gpu` is unbound, the expression
raises `NameError` (caught by the bare `except`), so every iteration prints
the warning and sleeps 5 seconds and the loop never breaks.  The returned
flag is whether the loop exited within `fuel` iterations. -/
def xformersLoopRun (gpu : Option Str) : Nat → List Ev × Bool
  | 0 => ([], false)
  | n + 1 =>
      match gpu with
      | some _ => ([], true)
      | none =>
          match xformersLoopRun gpu n with
          | (evs, done) => (Ev.print xformersWarnMsg :: Ev.sleep 5 :: evs, done)

/-- Precompiled xformers wheel URL for each supported GPU model
(the `if (gpu=='T4') ... elif ...` chain; `none` for any other value, where
`precompiled_wheels` would stay unbound). -/
def wheelUrl (gpu : Str) : Option Str :=
  if gpu = t4Str then
    some (("https://github.com/TheLastBen/fast-stable-diffusion/raw/main/precompiled/T4/xformers-0.0.13.dev0-py3-none-any.whl").data)
  else if gpu = p100Str then
    some (("https://github.com/TheLastBen/fast-stable-diffusion/raw/main/precompiled/P100/xformers-0.0.13.dev0-py3-none-any.whl").data)
  else if gpu = v100Str then
    some (("https://github.com/TheLastBen/fast-stable-diffusion/raw/main/precompiled/V100/xformers-0.0.13.dev0-py3-none-any.whl").data)
  else if gpu = a100Str then
    some (("https://github.com/TheLastBen/fast-stable-diffusion/raw/main/precompiled/A100/xformers-0.0.13.dev0-py3-none-any.whl").data)
  else none

/-- `install_xformers`: install triton, read the `nvidia-smi` summary
(`smi`, an input), run the detection chain and the `while True` loop
(bounded by `fuel`), then install the matching precompiled wheel.
`Outcome.hang` records that the loop did not exit within `fuel`. -/
def install_xformers_run (smi : Str) (fuel : Nat) : List Ev × Outcome :=
  let pre := [Ev.run pipTritonCmd]
  match xformersLoopRun (detectGpu smi) fuel with
  | (evs, false) => (pre ++ evs, Outcome.hang)
  | (evs, true) =>
      match detectGpu smi with
      | none => (pre ++ evs, Outcome.err PyError.nameError)
      | some gpu =>
          match wheelUrl gpu with
          | none => (pre ++ evs, Outcome.err PyError.nameError)
          | some u =>
              (pre ++ evs ++ [Ev.run [("pip").data, ("install").data, ("-q").data, u]],
               Outcome.ok)

/-! ### install_requirements -/

/-- `pip install -r <path>`. -/
def pipReqCmd (path : Str) : List Str :=
  [("pip").data, ("install").data, ("-r").data, path]

/-- `install_requirements(requirements_file=None, install_xformers=False)`:
when the argument is falsy (absent or the empty string), the default path is
`f"{self.repo_name}/{self.requirements_file}"` — but the class never assigns
`self.requirements_file`, so that attribute access raises `AttributeError`
unless a caller set the attribute externally.  Then `pip install -r` runs,
followed by `install_xformers` when requested. -/
def install_requirements (h : RepoHandler) (requirements_file : Option Str)
    (install_xformers : Bool) (smi : Str) (fuel : Nat) : List Ev × Outcome :=
  let given : Option Str :=
    match requirements_file with
    | some s => if s.isEmpty then none else some s
    | none => none
  let resolved : Except PyError Str :=
    match given with
    | some s => Except.ok s
    | none =>
        match h.requirements_file with
        | some rf => Except.ok (repo_name h ++ ('/' : Char) :: rf)
        | none => Except.error PyError.attributeError
  match resolved with
  | Except.error e => ([], Outcome.err e)
  | Except.ok path =>
      let evs := [Ev.run (pipReqCmd path)]
      if install_xformers then
        match install_xformers_run smi fuel with
        | (xevs, out) => (evs ++ xevs, out)
      else (evs, Outcome.ok)

/-! ### get_gpu_memory_map -/

/-- Decimal digit character. -/
def digitCh (d : Nat) : Char := Char.ofNat (48 + d)

/-- Decimal rendering of a natural number (fuel-based division recursion). -/
def natToStrAux : Nat → Nat → Str
  | 0, _ => []
  | fuel + 1, n => if n < 10 then [digitCh n] else natToStrAux fuel (n / 10) ++ [digitCh (n % 10)]

/-- Decimal rendering of a natural number, as in an f-string. -/
def natToStr (n : Nat) : Str := natToStrAux (n + 1) n

/-- Dict key `f"{bold}gpu_{index}{unbold}"`. -/
def gpuKey (i : Nat) : Str := bold ++ ("gpu_").data ++ natToStr i ++ unbold

/-- `{f"{bold}gpu_{index}{unbold}": memory for index, memory in enumerate(...)}`. -/
def enumKeys : Nat → List Str → List (Str × Str)
  | _, [] => []
  | i, m :: rest => (gpuKey i, m) :: enumKeys (i + 1) rest

/-- `get_gpu_memory_map`: run
`nvidia-smi --query-gpu=name,memory.total,memory.free --format=csv,noheader`
with `check=True` (the query result is an input: captured stdout, or the
raised error), strip the output, split it on `os.linesep` (`'\n'` on the
Linux hosts targeted), and key each line by a zero-based `gpu_<i>` label. -/
def get_gpu_memory_map (query : Except PyError Str) :
    Except PyError (List (Str × Str)) :=
  match query with
  | Except.error e => Except.error e
  | Except.ok out => Except.ok (enumKeys 0 (pySplit '\n' (strip out)))

/-! ### run_web_demo -/

/-- The external observations `run_web_demo` depends on: whether
`torch.cuda.is_available()`, the `nvidia-smi` query result, whether the repo
directory exists, and whether `README.md` exists together with its lines. -/
structure Env where
  cudaAvailable : Bool
  gpuQuery : Except PyError Str
  repoExists : Bool
  readmeExists : Bool
  readmeLines : List Str

/-- Message printed when CUDA is unavailable. -/
def notUsingGpuMsg : Str := bold ++ ("Not using the GPU").data ++ unbold

/-- Line 97: `if torch.cuda.is_available(): self.get_gpu_memory_map()`
(result discarded; a raised `CalledProcessError` propagates). -/
def gpuStep (env : Env) : List Ev × Option PyError :=
  if env.cudaAvailable then
    match get_gpu_memory_map env.gpuQuery with
    | Except.ok _ => ([], none)
    | Except.error e => ([], some e)
  else ([Ev.print notUsingGpuMsg], none)

/-- The key `'title'`. -/
def titleStr : Str := ("title").data

/-- The `f"Demo: {readme['title']}\n"` message (with its bold markup). -/
def demoMsg (t : Str) : Str := bold ++ ("Demo: ").data ++ t ++ [('\n' : Char)] ++ unbold

/-- The fixed follow-up print. -/
def waitMsg : Str :=
  ("Wait a few seconds, then click the link below to open your application:").data

/-- The URL built on source line 104 from the (undefined) names
`domain` and `region` and the fixed proxy port 6006. -/
def cloudUrl (domain region : Str) : Str :=
  bold ++ ("https://").data ++ domain ++ (".studio.").data ++ region ++
    (".sagemaker.aws/studiolab/default/jupyter/proxy/6006/").data ++ unbold

/-- `run_web_demo(aws_domain=None, aws_region=None)`.  After the GPU step it
sets `readme = self.__str__()` — a `str` or `None`, never the dict — so the
f-string subscript `readme['title']` on line 101 raises `TypeError` whenever
`__str__` returned normally.  Were the subscript to succeed, the next
statement `if all([domain,region]):` would raise `NameError`: the parameters
are named `aws_domain`/`aws_region`, and no `domain`/`region` are in scope;
source lines 103-112 (the URL print and the sdk dispatch) are unreachable. -/
def run_web_demo (name : Str) (env : Env)
    (aws_domain aws_region : Option Str) : List Ev × Outcome :=
  match gpuStep env with
  | (evs, some e) => (evs, Outcome.err e)
  | (evs, none) =>
      match strOfRepo name env.repoExists env.readmeExists env.readmeLines with
      | (evs2, Except.error e) => (evs ++ evs2, Outcome.err e)
      | (evs2, Except.ok readme) =>
          match pySubscript readme titleStr with
          | Except.error e => (evs ++ evs2, Outcome.err e)
          | Except.ok t =>
              (evs ++ evs2 ++ [Ev.print (demoMsg t), Ev.print waitMsg],
               Outcome.err PyError.nameError)

/-- The gradio launch `os.system` string of source line 108. -/
def gradioCmd (name app : Str) : Str :=
  ("export GRADIO_SERVER_PORT=6006 && cd ").data ++ name ++ (" && python ").data ++ app

/-- The streamlit launch `os.system` string of source line 110. -/
def streamlitCmd (name app : Str) : Str :=
  ("cd ").data ++ name ++ (" && streamlit run ").data ++ app ++ (" --server.port 6006").data

/-- Source lines 106-112 as written (the sdk dispatch).  This block is
unreachable in `run_web_demo` — line 101 always raises first — but it is
embedded faithfully to document what the code would do with the parsed dict:
`readme["sdk"] == 'gradio'` closes existing gradio apps and launches the
entry script with the server port fixed to 6006 inside the repo directory;
the next branch compares `readme["title"]` (not `sdk`) to `'streamlit'`. -/
def webDemoDispatch (name : Str) (readme : List (Str × Str)) : List Ev × Outcome :=
  match dictGet readme (("sdk").data) with
  | none => ([], Outcome.err PyError.keyError)
  | some sdk =>
      if sdk = ("gradio").data then
        match dictGet readme (("app_file").data) with
        | none => ([Ev.closeAll], Outcome.err PyError.keyError)
        | some app => ([Ev.closeAll, Ev.system (gradioCmd name app)], Outcome.ok)
      else
        match dictGet readme titleStr with
        | none => ([], Outcome.err PyError.keyError)
        | some t =>
            if t = ("streamlit").data then
              match dictGet readme (("app_file").data) with
              | none => ([], Outcome.err PyError.keyError)
              | some app => ([Ev.system (streamlitCmd name app)], Outcome.ok)
            else
              ([Ev.print (("This notebook will not work with static apps hosted on Spaces").data)],
               Outcome.ok)

/-- Events that start or stop a demo: `gr.close_all()` and the `os.system`
launch invocations.  `run_web_demo` never emits one. -/
def isLaunchAction : Ev → Bool
  | Ev.closeAll => true
  | Ev.system _ => true
  | _ => false


/-! ### Lemmas about the string primitives -/

theorem pySplit_ne_nil (c : Char) (l : Str) : pySplit c l ≠ [] := by
  induction l with
  | nil => simp [pySplit]
  | cons a rest ih =>
      simp only [pySplit]
      cases h : pySplit c rest with
      | nil => simp
      | cons x t => by_cases hac : a = c <;> simp [hac]

theorem pySplit_count_zero (c : Char) (l : Str) (h : countCh c l = 0) :
    pySplit c l = [l] := by
  induction l with
  | nil => rfl
  | cons a rest ih =>
      simp only [countCh] at h
      by_cases hac : a = c
      · simp [hac] at h
      · rw [if_neg hac, Nat.zero_add] at h
        simp [pySplit, ih h, hac]

theorem pySplit_first (c : Char) (l1 rest : Str) (h : countCh c l1 = 0) :
    pySplit c (l1 ++ c :: rest) = l1 :: pySplit c rest := by
  induction l1 with
  | nil =>
      simp only [List.nil_append, pySplit]
      cases hp : pySplit c rest with
      | nil => exact absurd hp (pySplit_ne_nil c rest)
      | cons x t => simp
  | cons a l1' ih =>
      simp only [countCh] at h
      by_cases hac : a = c
      · simp [hac] at h
      · rw [if_neg hac, Nat.zero_add] at h
        simp only [List.cons_append, pySplit, List.append_eq]
        rw [ih h]
        simp [hac]

theorem pySplit_count_one (c : Char) (l : Str) (h : countCh c l = 1) :
    pySplit c l = [beforeFirst c l, afterFirst c l] := by
  induction l with
  | nil => simp [countCh] at h
  | cons a rest ih =>
      simp only [countCh] at h
      by_cases hac : a = c
      · rw [if_pos hac] at h
        have h0 : countCh c rest = 0 := by omega
        simp only [pySplit, beforeFirst, afterFirst]
        rw [pySplit_count_zero c rest h0]
        simp [hac]
      · rw [if_neg hac, Nat.zero_add] at h
        simp only [pySplit, beforeFirst, afterFirst]
        rw [ih h]
        simp [hac]

theorem pySplit_length (c : Char) (l : Str) :
    (pySplit c l).length = countCh c l + 1 := by
  induction l with
  | nil => rfl
  | cons a rest ih =>
      simp only [pySplit, countCh]
      cases hp : pySplit c rest with
      | nil => exact absurd hp (pySplit_ne_nil c rest)
      | cons x t =>
          rw [hp] at ih
          simp only [List.length_cons] at ih
          by_cases hac : a = c
          · simp only [if_pos hac, List.length_cons]
            omega
          · simp only [if_neg hac, List.length_cons]
            omega

/-! ### Lemmas about __str__ and run_web_demo -/

theorem strOfRepo_shape (name : Str) (de fe : Bool) (lines : List Str) (v : PyVal)
    (hv : (strOfRepo name de fe lines).2 = Except.ok v) :
    (∃ d, v = PyVal.str (reprDict d)) ∨ v = PyVal.pynone := by
  unfold strOfRepo at hv
  split at hv
  · split at hv
    · rename_i evs d heq
      simp at hv
      exact Or.inl ⟨d, hv.symm⟩
    · rename_i evs e heq
      simp at hv
  · simp at hv
    exact Or.inr hv.symm

theorem pySubscript_of_shape (v : PyVal) (k : Str)
    (hv : (∃ d, v = PyVal.str (reprDict d)) ∨ v = PyVal.pynone) :
    pySubscript v k = Except.error PyError.typeError := by
  rcases hv with ⟨d, rfl⟩ | rfl <;> rfl

theorem gpuStep_prints (env : Env) :
    ∀ e ∈ (gpuStep env).1, isLaunchAction e = false := by
  intro e he
  unfold gpuStep at he
  split at he
  · split at he
    · simp at he
    · simp at he
  · simp at he
    rw [he]
    rfl

theorem retrieve_readme_prints (fe : Bool) (lines : List Str) :
    ∀ e ∈ (retrieve_readme fe lines).1, isLaunchAction e = false := by
  intro e he
  unfold retrieve_readme at he
  split at he
  · simp at he
  · simp at he
    rw [he]
    rfl

theorem strOfRepo_prints (name : Str) (de fe : Bool) (lines : List Str) :
    ∀ e ∈ (strOfRepo name de fe lines).1, isLaunchAction e = false := by
  intro e he
  unfold strOfRepo at he
  split at he
  · split at he
    · rename_i evs d heq
      simp at he
      have hq := retrieve_readme_prints fe lines e
      rw [heq] at hq
      exact hq he
    · rename_i evs err heq
      simp at he
      have hq := retrieve_readme_prints fe lines e
      rw [heq] at hq
      exact hq he
  · simp at he
    rw [he]
    rfl

theorem run_web_demo_prints (name : Str) (env : Env) (dom reg : Option Str) :
    ∀ e ∈ (run_web_demo name env dom reg).1, isLaunchAction e = false := by
  intro e he
  unfold run_web_demo at he
  split at he
  · rename_i evs err heq
    simp at he
    have hq := gpuStep_prints env e
    rw [heq] at hq
    exact hq he
  · rename_i evs heq
    split at he
    · rename_i evs2 err heq2
      simp at he
      rcases he with he | he
      · have hq := gpuStep_prints env e
        rw [heq] at hq
        exact hq he
      · have hq := strOfRepo_prints name env.repoExists env.readmeExists env.readmeLines e
        rw [heq2] at hq
        exact hq he
    · rename_i evs2 readme heq2
      split at he
      · rename_i err heq3
        simp at he
        rcases he with he | he
        · have hq := gpuStep_prints env e
          rw [heq] at hq
          exact hq he
        · have hq := strOfRepo_prints name env.repoExists env.readmeExists env.readmeLines e
          rw [heq2] at hq
          exact hq he
      · rename_i t heq3
        simp at he
        rcases he with he | he | he | he
        · have hq := gpuStep_prints env e
          rw [heq] at hq
          exact hq he
        · have hq := strOfRepo_prints name env.repoExists env.readmeExists env.readmeLines e
          rw [heq2] at hq
          exact hq he
        · rw [he]
          rfl
        · rw [he]
          rfl

theorem run_web_demo_typeError (name : Str) (env : Env) (dom reg : Option Str)
    (hgpu : env.cudaAvailable = true → ∃ s, env.gpuQuery = Except.ok s)
    (hstr : ∃ v, (strOfRepo name env.repoExists env.readmeExists env.readmeLines).2 =
      Except.ok v) :
    (run_web_demo name env dom reg).2 = Outcome.err PyError.typeError := by
  obtain ⟨v, hv⟩ := hstr
  have hshape := strOfRepo_shape name env.repoExists env.readmeExists env.readmeLines v hv
  have hsub := pySubscript_of_shape v titleStr hshape
  have hgs : gpuStep env = ([], none) ∨ gpuStep env = ([Ev.print notUsingGpuMsg], none) := by
    unfold gpuStep
    by_cases hc : env.cudaAvailable = true
    · obtain ⟨s, hs⟩ := hgpu hc
      left
      rw [if_pos hc, hs]
      rfl
    · right
      rw [if_neg hc]
  rcases hso : strOfRepo name env.repoExists env.readmeExists env.readmeLines with ⟨evs2, r⟩
  rw [hso] at hv
  simp at hv
  subst hv
  rcases hgs with hgs | hgs <;> simp [run_web_demo, hgs, hso, hsub]

/-! ### Lemmas about a single README parsing step -/

theorem readmeStep_skip (d : List (Str × Str)) (line : Str)
    (h : ¬ pyFind ':' line > 0 ∨ strContains checkStr line = true) :
    readmeStep d line = Except.ok d := by
  unfold readmeStep
  rw [if_pos h]

theorem readmeStep_single_colon (d : List (Str × Str)) (line : Str)
    (h1 : pyFind ':' line > 0) (h2 : strContains checkStr line = false)
    (h3 : countCh ':' line = 1) :
    readmeStep d line =
      Except.ok (dictSet d (beforeFirst ':' line)
        (removeNl (strip (afterFirst ':' line)))) := by
  unfold readmeStep
  rw [if_neg (by simp [h1, h2]), pySplit_count_one ':' line h3]

theorem readmeStep_multi_colon (d : List (Str × Str)) (line : Str)
    (h1 : pyFind ':' line > 0) (h2 : strContains checkStr line = false)
    (h3 : 2 ≤ countCh ':' line) :
    readmeStep d line = Except.error PyError.valueError := by
  unfold readmeStep
  rw [if_neg (by simp [h1, h2])]
  have hl := pySplit_length ':' line
  cases hp : pySplit ':' line with
  | nil => rfl
  | cons x t =>
      cases t with
      | nil => rfl
      | cons y t2 =>
          cases t2 with
          | nil =>
              rw [hp] at hl
              simp only [List.length_cons, List.length_nil] at hl
              omega
          | cons z t3 => rfl

/-! ### Lemmas about the install_xformers loop -/

theorem xformersLoopRun_none (n : Nat) :
    xformersLoopRun none n =
      ((List.replicate n [Ev.print xformersWarnMsg, Ev.sleep 5]).flatten, false) := by
  induction n with
  | zero => rfl
  | succ k ih =>
      simp only [xformersLoopRun, ih, List.replicate_succ, List.flatten]
      rfl

/-! ### Claim theorems -/

/-- C1 (counterexample): the line `"a:b:c\n"` has its first colon at
position 1 > 0 and does not contain `"Check"`, yet `retrieve_readme` does
not split it at the first colon into the entry `("a", "b:c")` — the
two-element unpacking of `line.split(':')` raises `ValueError` instead. -/
theorem C1_counterexample :
    pyFind ':' (("a:b:c\n").data) > 0 ∧
    strContains checkStr (("a:b:c\n").data) = false ∧
    (retrieve_readme true [("a:b:c\n").data]).2 = Except.error PyError.valueError := by
  decide

/-- C1 (amended): `retrieve_readme` produces an entry only from a line whose
first colon is at position > 0 and that does not contain `"Check"` (all other
lines leave the mapping unchanged); such a line with exactly one colon is
split at that colon, the key being the text before it and the value the text
after it stripped of surrounding whitespace and newlines; such a line with
two or more colons raises `ValueError`; and parsing `"title: Demo"` yields
exactly the entry mapping `"title"` to `"Demo"`. -/
theorem C1_readme_line_rule :
    (∀ (d : List (Str × Str)) (line : Str),
        ¬ pyFind ':' line > 0 ∨ strContains checkStr line = true →
        readmeStep d line = Except.ok d) ∧
    (∀ (d : List (Str × Str)) (line : Str),
        pyFind ':' line > 0 → strContains checkStr line = false →
        countCh ':' line = 1 →
        readmeStep d line =
          Except.ok (dictSet d (beforeFirst ':' line)
            (removeNl (strip (afterFirst ':' line))))) ∧
    (∀ (d : List (Str × Str)) (line : Str),
        pyFind ':' line > 0 → strContains checkStr line = false →
        2 ≤ countCh ':' line →
        readmeStep d line = Except.error PyError.valueError) ∧
    (retrieve_readme true [("title: Demo\n").data]).2 =
      Except.ok [(("title").data, ("Demo").data)] :=
  ⟨readmeStep_skip, readmeStep_single_colon, readmeStep_multi_colon, by decide⟩

/-- C1 (witness): the three universally quantified parts of
`C1_readme_line_rule` applied at concrete lines. -/
theorem C1_witness :
    readmeStep [] (("Check out this link\n").data) = Except.ok [] ∧
    readmeStep [] (("sdk: gradio\n").data) =
      Except.ok [(("sdk").data, ("gradio").data)] ∧
    readmeStep [] (("url: https://x\n").data) = Except.error PyError.valueError := by
  refine ⟨?_, ?_, ?_⟩
  · exact C1_readme_line_rule.1 [] (("Check out this link\n").data) (Or.inr (by decide))
  · have h := C1_readme_line_rule.2.1 [] (("sdk: gradio\n").data)
      (by decide) (by decide) (by decide)
    rw [h]
    decide
  · exact C1_readme_line_rule.2.2.1 [] (("url: https://x\n").data)
      (by decide) (by decide) (by decide)

/-- C2 (code evaluation at the failing input): on a manifest with no
`title` key (`README.md` = `"sdk: gradio\n"`), `run_web_demo` raises
`TypeError` — not the `KeyError` a dict access would give — because
`readme = self.__str__()` is the string rendering of the dict, and it
issues no launch command.  Had the code subscripted the parsed dict
itself, the missing key would indeed raise `KeyError`. -/
theorem C2_missing_title :
    (run_web_demo (("demo").data)
        ⟨false, Except.ok [], true, true, [("sdk: gradio\n").data]⟩ none none =
      ([Ev.print notUsingGpuMsg], Outcome.err PyError.typeError)) ∧
    ((run_web_demo (("demo").data)
        ⟨false, Except.ok [], true, true, [("sdk: gradio\n").data]⟩ none none).1.all
      (fun e => !isLaunchAction e) = true) ∧
    pySubscript (PyVal.dict [(("sdk").data, ("gradio").data)]) titleStr =
      Except.error PyError.keyError := by
  decide

/-- C3 (code evaluation at the failing input): on a complete manifest
(`title`, `sdk: gradio`, `app_file: app.py`) `run_web_demo` raises
`TypeError` at `readme['title']` and issues no launch command — it neither
calls `gr.close_all()` nor runs the gradio start command.  The dispatch
block of source lines 106-108, applied to the dict the parser actually
produced, would close running instances and launch
`export GRADIO_SERVER_PORT=6006 && cd demo && python app.py`. -/
theorem C3_gradio_launch :
    (run_web_demo (("demo").data)
        ⟨false, Except.ok [], true, true,
          [("title: Demo\n").data, ("sdk: gradio\n").data, ("app_file: app.py\n").data]⟩
        none none =
      ([Ev.print notUsingGpuMsg], Outcome.err PyError.typeError)) ∧
    ((run_web_demo (("demo").data)
        ⟨false, Except.ok [], true, true,
          [("title: Demo\n").data, ("sdk: gradio\n").data, ("app_file: app.py\n").data]⟩
        none none).1.all (fun e => !isLaunchAction e) = true) ∧
    (retrieve_readme true
        [("title: Demo\n").data, ("sdk: gradio\n").data, ("app_file: app.py\n").data]).2 =
      Except.ok [(("title").data, ("Demo").data), (("sdk").data, ("gradio").data),
        (("app_file").data, ("app.py").data)] ∧
    webDemoDispatch (("demo").data)
        [(("title").data, ("Demo").data), (("sdk").data, ("gradio").data),
         (("app_file").data, ("app.py").data)] =
      ([Ev.closeAll, Ev.system (gradioCmd (("demo").data) (("app.py").data))],
       Outcome.ok) := by
  decide

/-- C4 (counterexample): when the README contains a line with two colons
(`"a:b:c\n"`), `__str__` does not return a string or `None` — it propagates
the parser's `ValueError` — and `run_web_demo` consequently fails with
`ValueError`, not with a `TypeError` at the `readme['title']` subscript. -/
theorem C4_counterexample :
    (strOfRepo (("demo").data) true true [("a:b:c\n").data]).2 =
      Except.error PyError.valueError ∧
    (run_web_demo (("demo").data)
        ⟨false, Except.ok [], true, true, [("a:b:c\n").data]⟩ none none).2 =
      Outcome.err PyError.valueError := by
  decide

/-- C4 (amended): `run_web_demo` obtains the manifest via `__str__`, which
returns `None` when the repository directory does not exist and otherwise —
whenever it returns normally — returns the string rendering of the parsed
mapping or `None`; any such returned value makes the subscript
`readme['title']` raise `TypeError`, so whenever `__str__` returns normally
(and the GPU query, if made, does not raise) `run_web_demo` ends in
`TypeError`; and in every case no demo-launch command is issued. -/
theorem C4_str_subscript :
    ∀ (name : Str) (env : Env) (dom reg : Option Str),
    (env.repoExists = false →
      (strOfRepo name env.repoExists env.readmeExists env.readmeLines).2 =
        Except.ok PyVal.pynone) ∧
    (∀ v, (strOfRepo name env.repoExists env.readmeExists env.readmeLines).2 =
        Except.ok v →
      (∃ d, v = PyVal.str (reprDict d)) ∨ v = PyVal.pynone) ∧
    (∀ v, (strOfRepo name env.repoExists env.readmeExists env.readmeLines).2 =
        Except.ok v →
      pySubscript v titleStr = Except.error PyError.typeError) ∧
    ((env.cudaAvailable = true → ∃ s, env.gpuQuery = Except.ok s) →
      (∃ v, (strOfRepo name env.repoExists env.readmeExists env.readmeLines).2 =
        Except.ok v) →
      (run_web_demo name env dom reg).2 = Outcome.err PyError.typeError) ∧
    (∀ e ∈ (run_web_demo name env dom reg).1, isLaunchAction e = false) := by
  intro name env dom reg
  refine ⟨?_, ?_, ?_, ?_, ?_⟩
  · intro h
    simp [strOfRepo, h]
  · exact strOfRepo_shape name env.repoExists env.readmeExists env.readmeLines
  · intro v hv
    exact pySubscript_of_shape v titleStr
      (strOfRepo_shape name env.repoExists env.readmeExists env.readmeLines v hv)
  · intro hg hs
    exact run_web_demo_typeError name env dom reg hg hs
  · exact run_web_demo_prints name env dom reg

/-- C4 (witness): `C4_str_subscript` applied at a concrete environment with
a well-formed README. -/
theorem C4_witness :
    (run_web_demo (("demo").data)
        ⟨false, Except.ok [], true, true, [("title: Demo\n").data]⟩ none none).2 =
      Outcome.err PyError.typeError :=
  (C4_str_subscript (("demo").data)
      ⟨false, Except.ok [], true, true, [("title: Demo\n").data]⟩ none none).2.2.2.1
    (fun hc => absurd hc (by decide))
    ⟨PyVal.str (reprDict [(("title").data, ("Demo").data)]), by decide⟩

/-- C5 (code evaluation at the failing input): with both cloud parameters
supplied, `run_web_demo` raises `TypeError` before reaching the URL print,
and its trace does not contain the URL
`https://d.studio.r.sagemaker.aws/studiolab/default/jupyter/proxy/6006/`
(which line 104 could in any case not build: it references the undefined
names `domain` and `region` rather than the parameters
`aws_domain`/`aws_region`, a `NameError`). -/
theorem C5_cloud_url :
    (run_web_demo (("demo").data)
        ⟨false, Except.ok [], true, true,
          [("title: Demo\n").data, ("sdk: gradio\n").data, ("app_file: app.py\n").data]⟩
        (some (("d").data)) (some (("r").data)) =
      ([Ev.print notUsingGpuMsg], Outcome.err PyError.typeError)) ∧
    ((run_web_demo (("demo").data)
        ⟨false, Except.ok [], true, true,
          [("title: Demo\n").data, ("sdk: gradio\n").data, ("app_file: app.py\n").data]⟩
        (some (("d").data)) (some (("r").data))).1.contains
      (Ev.print (cloudUrl (("d").data) (("r").data))) = false) := by
  decide

/-- C6 (code evaluation at the failing input): for any handler constructed
by `__init__` (which never assigns `self.requirements_file`), calling
`install_requirements` without an explicit requirements path raises
`AttributeError` while building the default path
`f"{self.repo_name}/{self.requirements_file}"`, and the package installer
is never invoked — no `pip install -r <repo_name>/requirements.txt`
happens. -/
theorem C6_default_path :
    ∀ (url smi : Str) (fuel : Nat),
    install_requirements { repo_url := url } none false smi fuel =
      ([], Outcome.err PyError.attributeError) := by
  intro url smi fuel
  rfl

/-- C7: with `overwrite=False` and an existing directory, `clone_repo` only
reports "already cloned" and issues no clone command; with `overwrite=True`
and an existing directory it removes the directory first and then clones,
and when the removal fails it reports the `OSError` (the function still
returns a trace — nothing is raised) and, the directory still being
present, performs no clone. -/
theorem C7_clone_overwrite :
    ∀ (h : RepoHandler) (rmtree_ok : Bool),
    (clone_repo h true rmtree_ok false =
        ([Ev.print (alreadyClonedMsg (repo_name h))], true) ∧
      (clone_repo h true rmtree_ok false).1.contains
        (Ev.run (gitCloneCmd h.repo_url)) = false) ∧
    (clone_repo h true true true =
        ([Ev.rmtree (repo_name h), Ev.run (gitCloneCmd h.repo_url)], false)) ∧
    (clone_repo h true false true =
        ([Ev.print (rmtreeErrMsg (repo_name h)),
          Ev.print (alreadyClonedMsg (repo_name h))], true)) := by
  intro h rmtree_ok
  refine ⟨⟨rfl, ?_⟩, rfl, rfl⟩
  simp [clone_repo]

/-- C8: when the `nvidia-smi` summary contains none of the substrings
`T4`, `P100`, `V100`, `A100`, the local `gpu` stays unbound, and no matter
how many iterations the `while True` loop is given it never exits: each
iteration prints the warning and sleeps 5 seconds, and `install_xformers`
hangs after the initial triton install. -/
theorem C8_unsupported_gpu_loops :
    ∀ (s : Str) (n : Nat),
    strContains t4Str s = false → strContains p100Str s = false →
    strContains v100Str s = false → strContains a100Str s = false →
    install_xformers_run s n =
      ([Ev.run pipTritonCmd] ++
        (List.replicate n [Ev.print xformersWarnMsg, Ev.sleep 5]).flatten,
       Outcome.hang) := by
  intro s n h1 h2 h3 h4
  have hd : detectGpu s = none := by
    simp [detectGpu, h1, h2, h3, h4]
  unfold install_xformers_run
  rw [hd, xformersLoopRun_none n]

/-- C8 (witness): `C8_unsupported_gpu_loops` at a summary mentioning an
RTX 3060 and fuel 2. -/
theorem C8_witness :
    strContains t4Str (("NVIDIA GeForce RTX 3060").data) = false ∧
    strContains p100Str (("NVIDIA GeForce RTX 3060").data) = false ∧
    strContains v100Str (("NVIDIA GeForce RTX 3060").data) = false ∧
    strContains a100Str (("NVIDIA GeForce RTX 3060").data) = false ∧
    install_xformers_run (("NVIDIA GeForce RTX 3060").data) 2 =
      ([Ev.run pipTritonCmd] ++
        (List.replicate 2 [Ev.print xformersWarnMsg, Ev.sleep 5]).flatten,
       Outcome.hang) :=
  ⟨by decide, by decide, by decide, by decide,
    C8_unsupported_gpu_loops (("NVIDIA GeForce RTX 3060").data) 2
      (by decide) (by decide) (by decide) (by decide)⟩

/-- C9: when the GPU query's stdout consists of two newline-free CSV lines
(with a trailing newline) that the outer `strip` leaves intact,
`get_gpu_memory_map` returns the mapping with exactly the two entries
keyed by the zero-based labels `gpu_0` and `gpu_1` (in bold markup) whose
values are the two raw lines verbatim. -/
theorem C9_two_device_map :
    ∀ (l1 l2 : Str),
    countCh '\n' l1 = 0 → countCh '\n' l2 = 0 →
    strip (l1 ++ '\n' :: l2 ++ [('\n' : Char)]) = l1 ++ '\n' :: l2 →
    get_gpu_memory_map (Except.ok (l1 ++ '\n' :: l2 ++ [('\n' : Char)])) =
      Except.ok [(gpuKey 0, l1), (gpuKey 1, l2)] ∧
    ([(gpuKey 0, l1), (gpuKey 1, l2)] : List (Str × Str)).length = 2 := by
  intro l1 l2 h1 h2 h3
  constructor
  · simp only [get_gpu_memory_map]
    rw [h3, pySplit_first '\n' l1 l2 h1, pySplit_count_zero '\n' l2 h2]
    rfl
  · rfl

/-- C9 (witness): `C9_two_device_map` on two concrete nvidia-smi CSV lines. -/
theorem C9_witness :
    get_gpu_memory_map (Except.ok ((("Tesla T4, 15360 MiB, 15101 MiB").data) ++
        '\n' :: (("Tesla T4, 15360 MiB, 14870 MiB").data) ++ [('\n' : Char)])) =
      Except.ok [(gpuKey 0, ("Tesla T4, 15360 MiB, 15101 MiB").data),
        (gpuKey 1, ("Tesla T4, 15360 MiB, 14870 MiB").data)] :=
  (C9_two_device_map (("Tesla T4, 15360 MiB, 15101 MiB").data)
      (("Tesla T4, 15360 MiB, 14870 MiB").data)
      (by decide) (by decide) (by decide)).1

/-- C10: with `overwrite=True` and no existing local directory,
`shutil.rmtree` raises `OSError`, which is caught and printed, and —
the directory being absent — the `git clone` invocation is still issued,
in that order. -/
theorem C10_overwrite_missing_dir :
    ∀ (h : RepoHandler) (rmtree_ok : Bool),
    clone_repo h false rmtree_ok true =
      ([Ev.print (rmtreeErrMsg (repo_name h)), Ev.run (gitCloneCmd h.repo_url)],
       false) := by
  intro h rmtree_ok
  rfl
